import Mathlib

/-!
# Shallow embedding of the patrol-simulation engine (`src/hooks/useSimulation.ts`)

Numbers are modelled as exact rationals (`ℚ`): the source performs IEEE-754
double arithmetic, which we idealise as exact real arithmetic on rational
inputs.  The only irrational operations of the source (`Math.sqrt` inside
`Math.hypot`, `Math.atan2`, `Math.cos`, `Math.sin`, the constant `Math.PI`,
`Math.random` draws and `Date.now`) are supplied abstractly through an
`Oracle` structure.  Every *comparison* of `Math.hypot a b` against a bound
`c` is embedded as the equivalent squared comparison (for `c ≥ 0`,
`hypot a b ≤ c ↔ a² + b² ≤ c²`, and `hypot a b < c ↔ 0 < c ∧ a² + b² < c²`),
so branch decisions never depend on the oracle.
-/

/-- `GRID_SIZE = 20` in the source. -/
def GRID_SIZE : ℕ := 20

/-- `Position` from `types/simulation.ts`. -/
structure Position where
  x : ℚ
  y : ℚ
  z : ℚ
deriving DecidableEq, Repr

/-- `'static' | 'dynamic'` obstacle kind. -/
inductive ObstacleKind where
  | static
  | dynamic
deriving DecidableEq, Repr

/-- `Obstacle` from `types/simulation.ts` (`size` flattened to three fields). -/
structure Obstacle where
  id : String
  position : Position
  width : ℚ
  height : ℚ
  depth : ℚ
  type : ObstacleKind
  visible : Bool
deriving DecidableEq, Repr

/-- `'low' | 'medium' | 'high'` threat level. -/
inductive ThreatLevel where
  | low
  | medium
  | high
deriving DecidableEq, Repr

/-- `Intruder` from `types/simulation.ts`; the optional `detectedAt` is an `Option`. -/
structure Intruder where
  id : String
  position : Position
  detected : Bool
  threatLevel : ThreatLevel
  detectedAt : Option ℚ := none
deriving DecidableEq, Repr

/-- `DroneState` from `types/simulation.ts`. -/
structure DroneState where
  position : Position
  rotation : ℚ
  fovAngle : ℚ
  fovRange : ℚ
  battery : ℚ
  speed : ℚ
  isMoving : Bool
deriving DecidableEq, Repr

/-- `GridCell` from `types/simulation.ts`. -/
structure GridCell where
  x : ℕ
  y : ℕ
  visited : Bool
  lastVisited : ℚ
  coverageValue : ℚ
  threatValue : ℚ
  uncertaintyValue : ℚ
  isVisible : Bool
deriving DecidableEq, Repr

/-- The `GridCell[][]` field: a total map on the `GRID_SIZE × GRID_SIZE` index
square.  The source array is created with exactly these indices and every
access is bounds-checked, so the function representation is faithful. -/
def Grid : Type := Fin GRID_SIZE → Fin GRID_SIZE → GridCell

/-- `DecisionReason` from `types/simulation.ts`. -/
structure DecisionReason where
  id : ℕ
  reason : String
  weight : ℚ
  icon : String
deriving DecidableEq, Repr

/-- Timeline event categories. -/
inductive EventType where
  | detection
  | patrol
  | alert
  | decision
  | environment
deriving DecidableEq, Repr

/-- Timeline severities. -/
inductive Severity where
  | info
  | warning
  | danger
deriving DecidableEq, Repr

/-- `TimelineEvent` from `types/simulation.ts`. -/
structure TimelineEvent where
  id : String
  timestamp : ℚ
  type : EventType
  message : String
  severity : Severity
deriving DecidableEq, Repr

/-- `Metrics` from `types/simulation.ts`. -/
structure Metrics where
  areaObserved : ℚ
  blindSpots : ℚ
  detectionLatency : ℚ
  battery : ℚ
  intrudersDetected : ℕ
  totalIntruders : ℕ
  patrolEfficiency : ℚ
  avgResponseTime : ℚ
deriving DecidableEq, Repr

/-- The five `Algorithm` tags. -/
inductive Algorithm where
  | RPA
  | ZPA
  | CPA
  | TFA
  | PDAP
deriving DecidableEq, Repr

/-- The six `Environment` tags. -/
inductive Environment where
  | openGrid
  | urbanDense
  | mazeFacility
  | dynamicRisk
  | changingEnv
  | fogOfWar
deriving DecidableEq, Repr

/-- Environment tag rendered as in the source string literals. -/
def Environment.tag : Environment → String
  | .openGrid => "open-grid"
  | .urbanDense => "urban-dense"
  | .mazeFacility => "maze-facility"
  | .dynamicRisk => "dynamic-risk"
  | .changingEnv => "changing-env"
  | .fogOfWar => "fog-of-war"

/-- The `HeatmapType` tags. -/
inductive HeatmapType where
  | coverage
  | threat
  | uncertainty
  | none
deriving DecidableEq, Repr

/-- `SimulationState` from `types/simulation.ts`. -/
structure SimulationState where
  isRunning : Bool
  isPaused : Bool
  speed : ℚ
  currentAlgorithm : Algorithm
  currentEnvironment : Environment
  activeHeatmap : HeatmapType
  drone : DroneState
  obstacles : List Obstacle
  intruders : List Intruder
  grid : Grid
  metrics : Metrics
  decisionReasons : List DecisionReason
  timeline : List TimelineEvent
  elapsedTime : ℚ

/-- The irrational real operations and the non-deterministic inputs of the
source, supplied abstractly.  `rand n` is the value of the `n`-th
`Math.random()` draw of the call under consideration; `now` is
`Date.now() / 1000`; `pi` stands for the real constant `Math.PI`. -/
structure Oracle where
  sqrt : ℚ → ℚ
  atan2 : ℚ → ℚ → ℚ
  cos : ℚ → ℚ
  sin : ℚ → ℚ
  pi : ℚ
  rand : ℕ → ℚ
  now : ℚ

/-- `a² + b²`, the radicand of `Math.hypot a b`. -/
def hypSq (a b : ℚ) : ℚ := a * a + b * b

/-- `Math.hypot a b ≤ c` over the reals, as the equivalent squared
comparison (`hypot a b ≥ 0`, so for `c < 0` the comparison is false, and for
`c ≥ 0` it is `a² + b² ≤ c²`). -/
def hypLe (a b c : ℚ) : Bool := decide (0 ≤ c) && decide (hypSq a b ≤ c * c)

/-- `Math.hypot a b < c` over the reals, as the equivalent squared comparison. -/
def hypLt (a b c : ℚ) : Bool := decide (0 < c) && decide (hypSq a b < c * c)

/-- JS `toFixed(1)` / template formatting of a number, abstracted as the
decimal-free rational print; the claims under verification never inspect the
formatted digits. -/
def fmtNum (q : ℚ) : String := toString q

/-- `createGrid` (`useSimulation.ts:20-38`).  The two `Math.random()` draws
of each cell are supplied per cell by `threatRng` / `uncRng` (under fog of
war the uncertainty draw is skipped by the conditional, which only makes the
draw streams differ — no claim depends on the drawn values). -/
def createGrid (fogOfWar : Bool) (threatRng uncRng : Fin GRID_SIZE → Fin GRID_SIZE → ℚ) : Grid :=
  fun x y =>
    { x := x
      y := y
      visited := false
      lastVisited := 0
      coverageValue := 0
      threatValue := threatRng x y * (3 / 10)
      uncertaintyValue := if fogOfWar then 1 else uncRng x y * (1 / 2)
      isVisible := !fogOfWar }

/-- The nine fixed wall segments of `maze-facility` (`useSimulation.ts:70-80`). -/
def mazeWalls : List (ℚ × ℚ × ℚ × ℚ) :=
  [(-6, 0, 3/10, 8), (-3, -4, 3/10, 8), (0, 2, 3/10, 8), (3, -2, 3/10, 8),
   (6, 0, 3/10, 8), (-4, -6, 8, 3/10), (2, -3, 6, 3/10), (-2, 3, 8, 3/10),
   (4, 6, 6, 3/10)]

/-- `generateObstacles` (`useSimulation.ts:41-143`); `rng` is the stream of
`Math.random()` draws in call order. -/
def generateObstacles (rng : ℕ → ℚ) (env : Environment) : List Obstacle :=
  match env with
  | .openGrid => []
  | .urbanDense =>
      (List.range 15).map fun i =>
        { id := "obs-" ++ toString i
          position := { x := rng (5 * i) * 16 - 8, y := 0, z := rng (5 * i + 1) * 16 - 8 }
          width := 4/5 + rng (5 * i + 2) * (6/5)
          height := 1 + rng (5 * i + 3) * 2
          depth := 4/5 + rng (5 * i + 4) * (6/5)
          type := .static
          visible := true }
  | .mazeFacility =>
      (mazeWalls.enum).map fun wi =>
        { id := "wall-" ++ toString wi.1
          position := { x := wi.2.1, y := 0, z := wi.2.2.1 }
          width := wi.2.2.2.1
          height := 3/2
          depth := wi.2.2.2.2
          type := .static
          visible := true }
  | .dynamicRisk =>
      (List.range 6).map fun i =>
        { id := "obs-" ++ toString i
          position := { x := rng (2 * i) * 14 - 7, y := 0, z := rng (2 * i + 1) * 14 - 7 }
          width := 1, height := 1, depth := 1
          type := .static
          visible := true }
  | .changingEnv =>
      (List.range 10).map fun i =>
        { id := "obs-" ++ toString i
          position := { x := rng (3 * i) * 16 - 8, y := 0, z := rng (3 * i + 1) * 16 - 8 }
          width := 1, height := 3/2, depth := 1
          type := .dynamic
          visible := decide (rng (3 * i + 2) > 3/10) }
  | .fogOfWar =>
      (List.range 8).map fun i =>
        { id := "obs-" ++ toString i
          position := { x := rng (2 * i) * 14 - 7, y := 0, z := rng (2 * i + 1) * 14 - 7 }
          width := 1, height := 1, depth := 1
          type := .static
          visible := true }

/-- The four cluster centres of `dynamic-risk` (`useSimulation.ts:157-162`). -/
def clusterCenters : List (ℚ × ℚ) := [(-5, -5), (5, -5), (-5, 5), (5, 5)]

/-- `['low','medium','high'][Math.floor(u*3)]` (`useSimulation.ts:172`);
for draws `u ∈ [0,1)` the index is 0, 1 or 2 as in the source. -/
def pickThreat (u : ℚ) : ThreatLevel :=
  [ThreatLevel.low, ThreatLevel.medium, ThreatLevel.high].getD (Int.toNat ⌊u * 3⌋) ThreatLevel.high

/-- One intruder of `generateIntruders`; `k` is the index of its first
`Math.random()` draw.  Returns the intruder and the next free draw index. -/
def mkIntruder (rng : ℕ → ℚ) (env : Environment) (i k : ℕ) : Intruder × ℕ :=
  let x := rng k * 14 - 7
  let z := rng (k + 1) * 14 - 7
  if env = .dynamicRisk ∧ i > 0 then
    let cluster := i / 2
    let center := clusterCenters.getD (cluster % 4) (0, 0)
    let x := center.1 + (rng (k + 2) - 1/2) * 3
    let z := center.2 + (rng (k + 3) - 1/2) * 3
    ({ id := "intruder-" ++ toString i
       position := { x := x, y := 0, z := z }
       detected := false
       threatLevel := pickThreat (rng (k + 4)) }, k + 5)
  else
    ({ id := "intruder-" ++ toString i
       position := { x := x, y := 0, z := z }
       detected := false
       threatLevel := pickThreat (rng (k + 2)) }, k + 3)

/-- Loop of `generateIntruders` over the remaining count `n`. -/
def genIntrudersAux (rng : ℕ → ℚ) (env : Environment) : ℕ → ℕ → ℕ → List Intruder
  | 0, _, _ => []
  | n + 1, i, k =>
      let p := mkIntruder rng env i k
      p.1 :: genIntrudersAux rng env n (i + 1) p.2

/-- `generateIntruders` (`useSimulation.ts:146-177`). -/
def generateIntruders (rng : ℕ → ℚ) (env : Environment) : List Intruder :=
  genIntrudersAux rng env (if env = .dynamicRisk then 8 else 4) 0 0

/-- `initialDroneState` (`useSimulation.ts:179-187`). -/
def initialDroneState : DroneState :=
  { position := { x := 0, y := 2, z := 0 }
    rotation := 0
    fovAngle := 60
    fovRange := 4
    battery := 100
    speed := 1
    isMoving := false }

/-- `initialMetrics` (`useSimulation.ts:189-198`). -/
def initialMetrics : Metrics :=
  { areaObserved := 0
    blindSpots := 100
    detectionLatency := 0
    battery := 100
    intrudersDetected := 0
    totalIntruders := 0
    patrolEfficiency := 0
    avgResponseTime := 0 }

/-- Bounds-checked grid access `grid[gx]?.[gz]` on integer indices. -/
def gridAt (g : Grid) (gx gz : ℤ) : Option GridCell :=
  if h : 0 ≤ gx ∧ gx < (GRID_SIZE : ℤ) ∧ 0 ≤ gz ∧ gz < (GRID_SIZE : ℤ) then
    some (g ⟨gx.toNat, by omega⟩ ⟨gz.toNat, by omega⟩)
  else
    none

/-- `grid.flat()`: row-major flattening (outer index first, as in the source
`grid[x][y]` layout). -/
def gridFlat (g : Grid) : List GridCell :=
  ((List.finRange GRID_SIZE).map fun x => (List.finRange GRID_SIZE).map fun y => g x y).flatten

/-- CPA sector score: count of unvisited cells on the 3×3 lattice (step 2)
around the sector centre (`useSimulation.ts:277-288`). -/
def sectorScore (g : Grid) (sx sz : ℚ) : ℕ :=
  ([-2, 0, 2] : List ℚ).foldl (fun acc dx =>
    ([-2, 0, 2] : List ℚ).foldl (fun acc dz =>
      match gridAt g ⌊sx + dx + 10⌋ ⌊sz + dz + 10⌋ with
      | some c => if !c.visited then acc + 1 else acc
      | none => acc) acc) 0

/-- `sectors.sort((a,b) => b.score - a.score)[0]`: the JS sort is stable, so
the first element after the descending sort is the first sector attaining
the maximal score.  Fields: `(id, x, z, score)`. -/
def pickSector (hd : ℕ × ℚ × ℚ × ℕ) (tl : List (ℕ × ℚ × ℚ × ℕ)) : ℕ × ℚ × ℚ × ℕ :=
  tl.foldl (fun b s => if s.2.2.2 > b.2.2.2 then s else b) hd

/-- `getNextPosition` (`useSimulation.ts:223-477`).  The final `(position,
reasons)` is clamped to `[-9,9]` on `x`/`z` and the reasons are truncated to
three entries. -/
def getNextPosition (o : Oracle) (algorithm : Algorithm) (drone : DroneState)
    (grid : Grid) (intruders : List Intruder) (_obstacles : List Obstacle) :
    Position × List DecisionReason :=
  let detectedIntruders := intruders.filter (·.detected)
  let unvisitedCells := (gridFlat grid).filter fun c => !c.visited
  let start : Position × List DecisionReason := ({ drone.position with x := drone.position.x }, [])
  let result : Position × List DecisionReason :=
    match algorithm with
    | .RPA =>
        let angle := o.rand 0 * o.pi * 2
        let distance := 1 + o.rand 1 * 2
        ({ start.1 with
           x := max (-9) (min 9 (drone.position.x + o.cos angle * distance))
           z := max (-9) (min 9 (drone.position.z + o.sin angle * distance)) },
         [{ id := 1, reason := "Random direction selected", weight := 100, icon := "Shuffle" }])
    | .ZPA =>
        let gridX : ℤ := ⌊(drone.position.x + 10) / 2⌋
        let direction : ℚ := if gridX % 2 = 0 then 1 else -1
        let picked : Position × List DecisionReason :=
          if drone.position.z * direction ≥ 8 then
            ({ start.1 with x := drone.position.x + 2 },
             [{ id := 1, reason := "Advancing to next row", weight := 80, icon := "ArrowRight" }])
          else
            ({ start.1 with z := drone.position.z + direction * 2 },
             [{ id := 1, reason := "Continuing zigzag pattern", weight := 80, icon := "TrendingUp" }])
        let wrapped := if picked.1.x > 9 then { picked.1 with x := -9 } else picked.1
        (wrapped, picked.2 ++
          [{ id := 2, reason := "Systematic coverage", weight := 60, icon := "Grid3x3" }])
    | .CPA =>
        let sectors : List (ℕ × ℚ × ℚ) := [(1, 5, 5), (2, -5, 5), (3, -5, -5), (4, 5, -5)]
        let scored := sectors.map fun s => (s.1, s.2.1, s.2.2, sectorScore grid s.2.1 s.2.2)
        match scored with
        | [] => start
        | hd :: tl =>
          let targetSector := pickSector hd tl
          if targetSector.2.2.2 > 0 then
            let sdx := targetSector.2.1 - drone.position.x
            let sdz := targetSector.2.2.1 - drone.position.z
            if !(hypLe sdx sdz 5) then
              ({ start.1 with x := targetSector.2.1, z := targetSector.2.2.1 },
               [{ id := 1, reason := "Transit to Sector " ++ toString targetSector.1,
                  weight := 100, icon := "ArrowRight" }])
            else if unvisitedCells ≠ [] then
              let localUnvisited := unvisitedCells.filter fun c =>
                |((c.x : ℚ) - 10) - targetSector.2.1| < 8 ∧
                |((c.y : ℚ) - 10) - targetSector.2.2.1| < 8
              match localUnvisited with
              | lhd :: ltl =>
                  let tgt := ltl.foldl (fun best cell =>
                    if hypSq ((cell.x : ℚ) - 10 - drone.position.x) ((cell.y : ℚ) - 10 - drone.position.z) <
                       hypSq ((best.x : ℚ) - 10 - drone.position.x) ((best.y : ℚ) - 10 - drone.position.z)
                    then cell else best) lhd
                  ({ start.1 with x := (tgt.x : ℚ) - 10, z := (tgt.y : ℚ) - 10 },
                   [{ id := 1, reason := "Sweeping Sector " ++ toString targetSector.1,
                      weight := 90, icon := "Grid" }])
              | [] =>
                  ({ start.1 with x := targetSector.2.1, z := targetSector.2.2.1 },
                   [{ id := 1, reason := "Sector Finishing", weight := 60, icon := "Check" }])
            else
              start
          else
            ({ start.1 with x := 0, z := 0 },
             [{ id := 1, reason := "Mission Complete - RTB", weight := 100, icon := "Home" }])
    | .TFA =>
        match detectedIntruders with
        | _ :: _ =>
          let sum := detectedIntruders.foldl
            (fun acc i => (acc.1 + i.position.x, acc.2 + i.position.z)) ((0 : ℚ), (0 : ℚ))
          let count : ℚ := max 1 (detectedIntruders.length : ℚ)
          let cx := sum.1 / count
          let cz := sum.2 / count
          let dx := cx - drone.position.x
          let dz := cz - drone.position.z
          let angle := o.atan2 dz dx
          let main : Position × List DecisionReason :=
            if !(hypLe dx dz 4) then
              ({ start.1 with
                 x := drone.position.x + o.cos angle * 3
                 z := drone.position.z + o.sin angle * 3 },
               [{ id := 1, reason := "Intercepting target(s)", weight := 100, icon := "Crosshair" }])
            else if hypLt dx dz (5/2) then
              ({ start.1 with
                 x := drone.position.x - o.cos angle * 2
                 z := drone.position.z - o.sin angle * 2 },
               [{ id := 1, reason := "Maintaing tactical standoff", weight := 90, icon := "Shield" }])
            else
              ({ start.1 with
                 x := drone.position.x + o.cos (angle + o.pi / 2) * 1
                 z := drone.position.z + o.sin (angle + o.pi / 2) * 1 },
               [{ id := 1, reason := "Tracking & Monitoring", weight := 85, icon := "Eye" }])
          (main.1, main.2 ++
            [{ id := 2,
               reason := "Threat Centroid: [" ++ fmtNum cx ++ ", " ++ fmtNum cz ++ "]",
               weight := 80, icon := "MapPin" }])
        | [] =>
          let t := o.now
          let spiralRadius := 3 + o.sin (t * (1/2)) * 5
          ({ start.1 with x := o.cos t * spiralRadius, z := o.sin t * spiralRadius },
           [{ id := 1, reason := "Scanning for hostiles (Spiral)", weight := 50, icon := "Search" },
            { id := 2, reason := "Sector clear", weight := 30, icon := "CheckCircle" }])
    | .PDAP =>
        let maxRange : ℚ := if drone.battery > 50 then 20 else 10
        let moveCostWeight : ℚ := if drone.battery > 30 then 1/20 else 1/5
        let uncertaintyWeight : ℚ := 2
        let coverageWeight : ℚ := 1
        let threatCands : List (ℚ × ℚ × Bool × ℚ) :=
          detectedIntruders.map fun i => (i.position.x, i.position.z, true, (10 : ℚ))
        let lattice : List ℚ := [-8, -4, 0, 4, 8]
        let sectorCands : List (ℚ × ℚ × Bool × ℚ) :=
          (lattice.map fun sx => lattice.map fun sz => (sx, sz, false, (0 : ℚ))).flatten
        let candidates := threatCands ++ sectorCands
        let best : Option (ℚ × ℚ × ℚ × Bool) := candidates.foldl
          (fun st (cand : ℚ × ℚ × Bool × ℚ) =>
            let cdx := cand.1 - drone.position.x
            let cdz := cand.2.1 - drone.position.z
            if !(hypLe cdx cdz maxRange) then st
            else
              let base := cand.2.2.2 +
                (match gridAt grid ⌊cand.1 + 10⌋ ⌊cand.2.1 + 10⌋ with
                 | some c =>
                     c.uncertaintyValue * uncertaintyWeight * 10 +
                     (if !c.visited then coverageWeight * 5 else 0)
                 | none => 0)
              let score := base - o.sqrt (hypSq cdx cdz) * moveCostWeight
              match st with
              | none => some (score, cand.1, cand.2.1, cand.2.2.1)
              | some b => if score > b.1 then some (score, cand.1, cand.2.1, cand.2.2.1) else st)
          none
        match best with
        | some b =>
            let primeReason := if b.2.2.2 then "Engaging identified threat" else "Exploring high-value sector"
            ({ start.1 with x := b.2.1, z := b.2.2.1 },
             [{ id := 1, reason := primeReason, weight := 95,
                icon := if b.2.2.2 then "AlertTriangle" else "Compass" },
              { id := 2, reason := "Utility Score: " ++ fmtNum b.1, weight := 60, icon := "Activity" }])
        | none =>
            ({ start.1 with x := 0, z := 0 },
             [{ id := 1, reason := "Returning to base", weight := 50, icon := "Home" }])
  ({ result.1 with
     x := max (-9) (min 9 result.1.x)
     z := max (-9) (min 9 result.1.z) },
   result.2.take 3)

/-- The timeline event emitted on a fresh detection (`useSimulation.ts:574-580`). -/
def mkDetectionEvent (i : Intruder) (t : ℚ) : TimelineEvent :=
  { id := "detection-" ++ i.id ++ "-" ++ toString t
    timestamp := t
    type := .detection
    message := "Intruder detected at (" ++ fmtNum i.position.x ++ ", " ++ fmtNum i.position.z ++ ")"
    severity :=
      match i.threatLevel with
      | .high => .danger
      | .medium => .warning
      | .low => .info }

/-- The per-cell effect of the coverage pass (`useSimulation.ts:543-547`). -/
def markCell (t : ℚ) (c : GridCell) : GridCell :=
  { c with
    visited := true
    lastVisited := t
    coverageValue := 1
    uncertaintyValue := max 0 (c.uncertaintyValue - 1/10)
    isVisible := true }

/-- Whether cell `(x, z)` is reached by the coverage double loop
(`useSimulation.ts:536-550`): the loop ranges over offsets
`dx, dz ∈ [-3, 3]` from the centre cell `(cX, cZ)`, skips out-of-bounds
indices (automatic here: the grid domain is exactly `[0, 20)²`), and marks
the cell when `Math.hypot dx dz ≤ fov`. -/
def coverHit (cX cZ : ℤ) (fov : ℚ) (x z : Fin GRID_SIZE) : Bool :=
  let dx : ℤ := (x : ℕ) - cX
  let dz : ℤ := (z : ℕ) - cZ
  decide (-3 ≤ dx) && decide (dx ≤ 3) && decide (-3 ≤ dz) && decide (dz ≤ 3) &&
    hypLe (dx : ℚ) (dz : ℚ) fov

/-- The coverage pass: each cell hit by the loop is updated once by
`markCell`, all others are untouched. -/
def markObservedCells (cX cZ : ℤ) (fov t : ℚ) (g : Grid) : Grid :=
  fun x z => if coverHit cX cZ fov x z then markCell t (g x z) else g x z

/-- `grid.flat().filter(c => c.visited).length` (`useSimulation.ts:585`). -/
def visitedCount (g : Grid) : ℕ :=
  ((gridFlat g).filter (·.visited)).length

/-- The movement vector `(moveX, moveZ)` (`useSimulation.ts:514-516`):
`0` when `distance ≤ 0.1`; otherwise `(d/distance) · min(moveSpeed,
distance)` componentwise.  When `distance ≤ moveSpeed` the `min` selects
`distance` and the agent lands exactly on the target; otherwise it advances
`moveSpeed` along the unit direction (the only place the square root's
value is needed). -/
def moveDelta (o : Oracle) (dx dz moveSpeed : ℚ) : ℚ × ℚ :=
  if !(hypLe dx dz (1/10)) then
    if hypLe dx dz moveSpeed then (dx, dz)
    else (dx * moveSpeed / o.sqrt (hypSq dx dz), dz * moveSpeed / o.sqrt (hypSq dx dz))
  else (0, 0)

/-- One tick of `updateSimulation` (`useSimulation.ts:480-614`).  The mutable
`targetPositionRef` is threaded explicitly: the function receives the current
target and returns the updated one alongside the new state. -/
def updateSimulation (o : Oracle) (deltaTime : ℚ) (target : Option Position)
    (prev : SimulationState) : SimulationState × Option Position :=
  if !prev.isRunning || prev.isPaused then (prev, target) else
  let dt := deltaTime * prev.speed
  let newElapsed := prev.elapsedTime + dt
  let reacquire : SimulationState × Option Position :=
    let pr := getNextPosition o prev.currentAlgorithm prev.drone prev.grid
      prev.intruders prev.obstacles
    ({ prev with decisionReasons := pr.2 }, some pr.1)
  match target with
  | none => reacquire
  | some t =>
    if hypLt (prev.drone.position.x - t.x) (prev.drone.position.z - t.z) (1/2) then
      reacquire
    else
      let dx := t.x - prev.drone.position.x
      let dz := t.z - prev.drone.position.z
      let moveSpeed := 2 * dt
      let mv := moveDelta o dx dz moveSpeed
      let newDrone : DroneState :=
        { prev.drone with
          position :=
            { x := prev.drone.position.x + mv.1
              y := prev.drone.position.y
              z := prev.drone.position.z + mv.2 }
          rotation := o.atan2 dz dx
          battery := max 0 (prev.drone.battery - 1/100 * dt)
          isMoving := !(hypLe dx dz (1/10)) }
      let droneGridX : ℤ := ⌊newDrone.position.x + 10⌋
      let droneGridZ : ℤ := ⌊newDrone.position.z + 10⌋
      let newGrid := markObservedCells droneGridX droneGridZ newDrone.fovRange newElapsed prev.grid
      let newIntruders := prev.intruders.map fun i =>
        if hypLe (i.position.x - newDrone.position.x) (i.position.z - newDrone.position.z)
             newDrone.fovRange && !i.detected then
          { i with detected := true, detectedAt := some newElapsed }
        else i
      let newTimeline := (prev.intruders.zip newIntruders).foldl
        (fun acc (p : Intruder × Intruder) =>
          if p.2.detected && !p.1.detected then mkDetectionEvent p.2 newElapsed :: acc else acc)
        prev.timeline
      let vc := visitedCount newGrid
      let totalCells : ℕ := GRID_SIZE * GRID_SIZE
      let detectedCount := (newIntruders.filter (·.detected)).length
      let newMetrics : Metrics :=
        { areaObserved := ((vc : ℚ) / totalCells) * 100
          blindSpots := (((totalCells : ℚ) - vc) / totalCells) * 100
          detectionLatency :=
            if detectedCount > 0 then
              ((newIntruders.filter fun i =>
                  i.detected && decide (i.detectedAt.getD 0 ≠ 0)).foldl
                (fun s i => s + i.detectedAt.getD 0) 0) / detectedCount
            else 0
          battery := newDrone.battery
          intrudersDetected := detectedCount
          totalIntruders := newIntruders.length
          patrolEfficiency := ((vc : ℚ) / max 1 newElapsed) * 10
          avgResponseTime := if detectedCount > 0 then prev.metrics.detectionLatency else 0 }
      ({ prev with
         drone := newDrone
         grid := newGrid
         intruders := newIntruders
         metrics := newMetrics
         timeline := newTimeline.take 50
         elapsedTime := newElapsed }, target)

/-- The `setSpeed` control action (`useSimulation.ts:709-711`): the new
multiplier is stored unconditionally. -/
def setSpeed (speed : ℚ) (prev : SimulationState) : SimulationState :=
  { prev with speed := speed }

/-- The `addTimelineEvent` producer (`useSimulation.ts:713-718`). -/
def addTimelineEvent (event : TimelineEvent) (prev : SimulationState) : SimulationState :=
  { prev with timeline := (event :: prev.timeline).take 50 }

/-- The environment-change timeline event (`useSimulation.ts:692-698`);
`nowMs` is the `Date.now()` reading used in the id. -/
def envChangeEvent (environment : Environment) (nowMs : ℚ) : TimelineEvent :=
  { id := "env-change-" ++ toString nowMs
    timestamp := 0
    type := .environment
    message := "Environment changed to " ++ environment.tag
    severity := .info }

/-- The `setEnvironment` control action (`useSimulation.ts:678-703`).  The
random draw streams of the two generators and of `createGrid` are passed
explicitly; the cleared `targetPositionRef` is returned as `none`. -/
def setEnvironment (environment : Environment) (nowMs : ℚ) (rngO rngI : ℕ → ℚ)
    (threatRng uncRng : Fin GRID_SIZE → Fin GRID_SIZE → ℚ)
    (prev : SimulationState) : SimulationState × Option Position :=
  let newObstacles := generateObstacles rngO environment
  let newIntruders := generateIntruders rngI environment
  let isFogOfWar := environment = Environment.fogOfWar
  ({ prev with
     currentEnvironment := environment
     obstacles := newObstacles
     intruders := newIntruders
     grid := createGrid isFogOfWar threatRng uncRng
     drone := initialDroneState
     metrics := { initialMetrics with totalIntruders := newIntruders.length }
     timeline := [envChangeEvent environment nowMs]
     elapsedTime := 0
     isRunning := false
     isPaused := false }, none)

/-! ## Concrete fixtures used by the scenario theorems and witnesses -/

/-- A concrete oracle: all abstract real operations return 0.  The theorems
below never depend on the oracle's values, so any instance serves. -/
def oracle0 : Oracle :=
  { sqrt := fun _ => 0
    atan2 := fun _ _ => 0
    cos := fun _ => 0
    sin := fun _ => 0
    pi := 0
    rand := fun _ => 0
    now := 0 }

/-- A concrete random stream: every draw is 0. -/
def rng0 : ℕ → ℚ := fun _ => 0

/-- A concrete per-cell draw function. -/
def cellRng0 : Fin GRID_SIZE → Fin GRID_SIZE → ℚ := fun _ _ => 0

/-- A freshly generated grid (no fog of war, all draws 0). -/
def grid0 : Grid := createGrid false cellRng0 cellRng0

/-- A running, unpaused baseline state (the `useSimulation` initial state
with `ZPA` selected and the run flag set). -/
def baseState : SimulationState :=
  { isRunning := true
    isPaused := false
    speed := 1
    currentAlgorithm := Algorithm.ZPA
    currentEnvironment := Environment.openGrid
    activeHeatmap := HeatmapType.none
    drone := initialDroneState
    obstacles := []
    intruders := []
    grid := grid0
    metrics := initialMetrics
    decisionReasons := []
    timeline := []
    elapsedTime := 0 }

/-- Drone of the ZPA scenario of C3: at `x = 0`, `z = 9`. -/
def zpaDrone : DroneState :=
  { initialDroneState with position := { x := 0, y := 2, z := 9 } }

/-- Drone at `x = 2`, `z = 9`, where the row-advance branch of ZPA does fire. -/
def zpaDroneRow : DroneState :=
  { initialDroneState with position := { x := 2, y := 2, z := 9 } }

/-! ## C3 — ZPA decision at `x = 0`, `z = 9` -/

/-- C3 (counterexample): the claim asserts that at `x = 0`, `z = 9` the next
ZPA decision advances `x` by 2, leaves `z` unchanged and yields a row-advance
reason.  On the code, `col = ⌊(0+10)/2⌋ = 5` is odd, so `dir = -1` and
`z·dir = -9 < 8`: the decision leaves `x = 0`, moves `z` to `7`, and the
primary reason is the zigzag-continuation reason, contradicting all three
asserted outcomes. -/
theorem c3_zpa_counterexample :
    (getNextPosition oracle0 Algorithm.ZPA zpaDrone grid0 [] []).1 = ⟨0, 2, 7⟩ ∧
    ((getNextPosition oracle0 Algorithm.ZPA zpaDrone grid0 [] []).2.head?.map
      (fun r => r.reason)) = some "Continuing zigzag pattern" ∧
    ¬((getNextPosition oracle0 Algorithm.ZPA zpaDrone grid0 [] []).1.x
        = zpaDrone.position.x + 2 ∧
      (getNextPosition oracle0 Algorithm.ZPA zpaDrone grid0 [] []).1.z
        = zpaDrone.position.z) := by
  refine ⟨?_, ?_, ?_⟩ <;>
    norm_num [getNextPosition, zpaDrone, initialDroneState, Position.mk.injEq]

/-- C3 (amended): at `x = 0` the column index 5 is odd, so `dir = -1` and
`z·dir = -9 < 8`: the next ZPA decision moves `z` by `-2` (to 7), leaves `x`
unchanged, and produces the zigzag-continuation reason (plus the systematic
coverage reason).  The row-advance outcome the claim describes occurs when
`z·dir ≥ 8`, e.g. at `x = 2` (`col = 6` even, `dir = +1`), `z = 9`: there
`x` advances by 2 to 4 with `z` unchanged and the row-advance reason. -/
theorem c3_zpa_zigzag_and_row_advance :
    ((getNextPosition oracle0 Algorithm.ZPA zpaDrone grid0 [] []).1 = ⟨0, 2, 7⟩ ∧
     (getNextPosition oracle0 Algorithm.ZPA zpaDrone grid0 [] []).2.map
       (fun r => r.reason) = ["Continuing zigzag pattern", "Systematic coverage"]) ∧
    ((getNextPosition oracle0 Algorithm.ZPA zpaDroneRow grid0 [] []).1 = ⟨4, 2, 9⟩ ∧
     (getNextPosition oracle0 Algorithm.ZPA zpaDroneRow grid0 [] []).2.map
       (fun r => r.reason) = ["Advancing to next row", "Systematic coverage"]) := by
  refine ⟨⟨?_, ?_⟩, ⟨?_, ?_⟩⟩ <;>
    norm_num [getNextPosition, zpaDrone, zpaDroneRow, initialDroneState, Position.mk.injEq]

/-! ## C4 — `setSpeed` validation -/

/-- C4 (counterexample): the claim asserts that a multiplier outside
`[0.25, 4]` is rejected with the previous speed retained.  Calling the
embedded `setSpeed` with 10 (which is outside the range) on the baseline
state (speed 1) stores 10: the speed does not retain its previous value. -/
theorem c4_setSpeed_counterexample :
    ¬((10 : ℚ) ≤ 4) ∧ baseState.speed = 1 ∧
    (setSpeed 10 baseState).speed = 10 ∧
    (setSpeed 10 baseState).speed ≠ baseState.speed := by
  refine ⟨by norm_num, rfl, rfl, by norm_num [setSpeed, baseState]⟩

/-- C4 (amended): `setSpeed` performs no validation at all: it stores the
supplied multiplier unconditionally (the `[0.25, 4]` range is enforced only
by the UI slider, outside this core), and changes no other state field. -/
theorem c4_setSpeed_unconditional (v : ℚ) (prev : SimulationState) :
    (setSpeed v prev).speed = v ∧
    (setSpeed v prev).isRunning = prev.isRunning ∧
    (setSpeed v prev).isPaused = prev.isPaused ∧
    (setSpeed v prev).currentAlgorithm = prev.currentAlgorithm ∧
    (setSpeed v prev).currentEnvironment = prev.currentEnvironment ∧
    (setSpeed v prev).activeHeatmap = prev.activeHeatmap ∧
    (setSpeed v prev).drone = prev.drone ∧
    (setSpeed v prev).obstacles = prev.obstacles ∧
    (setSpeed v prev).intruders = prev.intruders ∧
    (setSpeed v prev).grid = prev.grid ∧
    (setSpeed v prev).metrics = prev.metrics ∧
    (setSpeed v prev).decisionReasons = prev.decisionReasons ∧
    (setSpeed v prev).timeline = prev.timeline ∧
    (setSpeed v prev).elapsedTime = prev.elapsedTime := by
  exact ⟨rfl, rfl, rfl, rfl, rfl, rfl, rfl, rfl, rfl, rfl, rfl, rfl, rfl, rfl⟩

/-! ## C8 — generator counts and kinds -/

/-- C8: for every random stream, `generateObstacles` yields the empty list
on `open-grid` and exactly 6 obstacles, all static, on `dynamic-risk`; and
`generateIntruders` yields exactly 8 intruders on `dynamic-risk`, all
initially undetected. -/
theorem c8_generator_counts (rng : ℕ → ℚ) :
    generateObstacles rng Environment.openGrid = [] ∧
    (generateObstacles rng Environment.dynamicRisk).length = 6 ∧
    (generateObstacles rng Environment.dynamicRisk).all
      (fun ob => ob.type = ObstacleKind.static) = true ∧
    (generateIntruders rng Environment.dynamicRisk).length = 8 ∧
    (generateIntruders rng Environment.dynamicRisk).all
      (fun i => i.detected = false) = true := by
  refine ⟨rfl, ?_, ?_, ?_, ?_⟩
  · simp [generateObstacles]
  · simp [generateObstacles, List.all_eq_true]
  · simp [generateIntruders, genIntrudersAux, mkIntruder]
  · simp [generateIntruders, genIntrudersAux, mkIntruder, List.all_eq_true]

/-! ## C1 — detection scenario -/

/-- A pre-existing timeline entry, to witness that detection events are
prepended in front of older entries. -/
def priorEvent : TimelineEvent :=
  { id := "prior"
    timestamp := 0
    type := EventType.patrol
    message := "Patrol update"
    severity := Severity.info }

/-- The single not-yet-detected intruder of the C1 scenario, at `(1, 2, 1)`. -/
def c1Intruder : Intruder :=
  { id := "intruder-0"
    position := { x := 1, y := 2, z := 1 }
    detected := false
    threatLevel := ThreatLevel.low }

/-- The C1 scenario state: running, not paused, agent at `(0, 2, 0)` with
sensor radius 4 (the initial drone), speed multiplier `5/2`, one intruder. -/
def c1State : SimulationState :=
  { baseState with
    speed := 5/2
    intruders := [c1Intruder]
    timeline := [priorEvent] }

/-- The live target of the C1 tick, half a unit away from the agent (so the
tick takes the movement path — detection runs on movement ticks; a tick
without a live target only acquires one and touches nothing else). -/
def c1Target : Position := { x := 1/2, y := 2, z := 0 }

/-- C1: one running, unpaused tick of the scenario (agent at `(0,2,0)`,
sensor radius 4, intruder at `(1,2,1)`, planar distance `√2 < 4` after the
move) marks the intruder detected, records `detectedAt` (the new elapsed
time `1/4`), and prepends a detection-category timeline event in front of
the pre-existing timeline. -/
theorem c1_detection_tick (o : Oracle) :
    ((updateSimulation o (1/10) (some c1Target) c1State).1.intruders
      = [{ c1Intruder with detected := true, detectedAt := some (1/4) }]) ∧
    ((updateSimulation o (1/10) (some c1Target) c1State).1.timeline.head?.map
      (fun e => e.type) = some EventType.detection) ∧
    ((updateSimulation o (1/10) (some c1Target) c1State).1.timeline.tail
      = c1State.timeline) := by
  refine ⟨?_, ?_, ?_⟩ <;>
    norm_num [updateSimulation, c1State, baseState, c1Target, c1Intruder,
      initialDroneState, hypLt, hypLe, hypSq, moveDelta, mkDetectionEvent,
      priorEvent, Intruder.mk.injEq]

/-! ## C2 — battery decrement -/

/-- C2 (counterexample): the claim asserts the battery drops by `0.01·dt`
on every running tick, including ticks that only acquire a new target.  On
a running, unpaused tick with no live target (the reacquisition path) the
code returns early and the battery is unchanged: here it stays at 100,
whereas the claimed decrement would give a value different from 100. -/
theorem c2_battery_counterexample :
    baseState.isRunning = true ∧ baseState.isPaused = false ∧
    (updateSimulation oracle0 (1/10) none baseState).1.drone.battery = 100 ∧
    max 0 (baseState.drone.battery - 1/100 * (1/10 * baseState.speed)) ≠ 100 := by
  refine ⟨rfl, rfl, ?_, ?_⟩
  · norm_num [updateSimulation, baseState, initialDroneState]
  · norm_num [baseState, initialDroneState]

/-- C2 (amended): the battery is decremented by `0.01·dt` (and floored at
0) exactly on the ticks that take the movement path — a live target at
distance `≥ 0.5` exists; ticks that only acquire a new target (no target,
or target closer than `0.5`) leave the battery unchanged. -/
theorem c2_battery_decrement (o : Oracle) (d : ℚ) (s : SimulationState)
    (hrun : s.isRunning = true) (hp : s.isPaused = false) :
    (∀ t : Position,
      hypLt (s.drone.position.x - t.x) (s.drone.position.z - t.z) (1/2) = false →
      (updateSimulation o d (some t) s).1.drone.battery
        = max 0 (s.drone.battery - 1/100 * (d * s.speed))) ∧
    ((updateSimulation o d none s).1.drone.battery = s.drone.battery) ∧
    (∀ t : Position,
      hypLt (s.drone.position.x - t.x) (s.drone.position.z - t.z) (1/2) = true →
      (updateSimulation o d (some t) s).1.drone.battery = s.drone.battery) := by
  refine ⟨fun t ht => ?_, ?_, fun t ht => ?_⟩
  · simp only [one_div] at ht
    simp [updateSimulation, hrun, hp, ht]
  · simp [updateSimulation, hrun, hp]
  · simp only [one_div] at ht
    simp [updateSimulation, hrun, hp, ht]

/-- C2 (witness): the amended theorem applied to the C1 scenario tick (a
movement tick) and to a no-target tick on the baseline state. -/
theorem c2_battery_decrement_witness :
    (updateSimulation oracle0 (1/10) (some c1Target) c1State).1.drone.battery
      = max 0 (c1State.drone.battery - 1/100 * (1/10 * c1State.speed)) ∧
    (updateSimulation oracle0 (1/10) none baseState).1.drone.battery
      = baseState.drone.battery := by
  exact ⟨(c2_battery_decrement oracle0 (1/10) c1State rfl rfl).1 c1Target
      (by norm_num [hypLt, hypSq, c1State, baseState, c1Target, initialDroneState]),
    (c2_battery_decrement oracle0 (1/10) baseState rfl rfl).2.1⟩

/-! ## C10 — frame property of reacquisition ticks -/

/-- C10: on a running, unpaused tick on which target reacquisition fires
(no current target, or the target is within `0.5` units), the returned
state agrees with the previous state on the drone, grid, intruders,
metrics, timeline and elapsed time; only `decisionReasons` is replaced
(wholesale, by the fresh decision's reasons). -/
theorem c10_reacquisition_frame (o : Oracle) (d : ℚ) (tgt : Option Position)
    (s : SimulationState) (hrun : s.isRunning = true) (hp : s.isPaused = false)
    (hneed : tgt = none ∨ ∃ t, tgt = some t ∧
      hypLt (s.drone.position.x - t.x) (s.drone.position.z - t.z) (1/2) = true) :
    (updateSimulation o d tgt s).1.drone = s.drone ∧
    (updateSimulation o d tgt s).1.grid = s.grid ∧
    (updateSimulation o d tgt s).1.intruders = s.intruders ∧
    (updateSimulation o d tgt s).1.metrics = s.metrics ∧
    (updateSimulation o d tgt s).1.timeline = s.timeline ∧
    (updateSimulation o d tgt s).1.elapsedTime = s.elapsedTime ∧
    (updateSimulation o d tgt s).1.decisionReasons
      = (getNextPosition o s.currentAlgorithm s.drone s.grid s.intruders s.obstacles).2 := by
  rcases hneed with h | ⟨t, ht, hlt⟩
  · subst h
    refine ⟨?_, ?_, ?_, ?_, ?_, ?_, ?_⟩ <;> simp [updateSimulation, hrun, hp]
  · subst ht
    simp only [one_div] at hlt
    refine ⟨?_, ?_, ?_, ?_, ?_, ?_, ?_⟩ <;> simp [updateSimulation, hrun, hp, hlt]

/-- C10 (witness): the frame theorem applied to a no-target tick on the
baseline state. -/
theorem c10_reacquisition_frame_witness :
    (updateSimulation oracle0 (1/10) none baseState).1.drone = baseState.drone ∧
    (updateSimulation oracle0 (1/10) none baseState).1.grid = baseState.grid ∧
    (updateSimulation oracle0 (1/10) none baseState).1.intruders = baseState.intruders ∧
    (updateSimulation oracle0 (1/10) none baseState).1.metrics = baseState.metrics ∧
    (updateSimulation oracle0 (1/10) none baseState).1.timeline = baseState.timeline ∧
    (updateSimulation oracle0 (1/10) none baseState).1.elapsedTime = baseState.elapsedTime ∧
    (updateSimulation oracle0 (1/10) none baseState).1.decisionReasons
      = (getNextPosition oracle0 baseState.currentAlgorithm baseState.drone baseState.grid
          baseState.intruders baseState.obstacles).2 :=
  c10_reacquisition_frame oracle0 (1/10) none baseState rfl rfl (Or.inl rfl)

/-! ## C7 — metrics identity -/

/-- C7: the tick preserves `areaObserved + blindSpots = 100` exactly (in
the exact rational arithmetic of the embedding): a movement tick recomputes
`areaObserved = visited/total·100` and `blindSpots = (total−visited)/total·100`,
which sum to 100, and the other tick paths leave the metrics unchanged;
the initial metrics also satisfy the identity. -/
theorem c7_metrics_sum (o : Oracle) (d : ℚ) (tgt : Option Position)
    (s : SimulationState)
    (h : s.metrics.areaObserved + s.metrics.blindSpots = 100) :
    (updateSimulation o d tgt s).1.metrics.areaObserved
      + (updateSimulation o d tgt s).1.metrics.blindSpots = 100 ∧
    initialMetrics.areaObserved + initialMetrics.blindSpots = 100 := by
  refine ⟨?_, by norm_num [initialMetrics]⟩
  by_cases hrb : (!s.isRunning || s.isPaused) = true
  · simp [updateSimulation, hrb, h]
  · rcases tgt with _ | t
    · simp [updateSimulation, hrb, h]
    · by_cases hlt : hypLt (s.drone.position.x - t.x) (s.drone.position.z - t.z) (1/2) = true
      · simp only [one_div] at hlt
        simp [updateSimulation, hrb, hlt, h]
      · simp only [one_div] at hlt
        simp [updateSimulation, hrb, hlt, GRID_SIZE]
        ring

/-- C7 (witness): the identity theorem applied to a tick on the baseline
state (whose metrics satisfy `0 + 100 = 100`). -/
theorem c7_metrics_sum_witness :
    (updateSimulation oracle0 (1/10) none baseState).1.metrics.areaObserved
      + (updateSimulation oracle0 (1/10) none baseState).1.metrics.blindSpots = 100 ∧
    initialMetrics.areaObserved + initialMetrics.blindSpots = 100 :=
  c7_metrics_sum oracle0 (1/10) none baseState (by norm_num [baseState, initialMetrics])

/-! ## C5 — battery monotonicity along tick sequences -/

/-- One tick can only decrease the battery, keeps it in `[0, 100]`, and
preserves the speed multiplier (needed to iterate the argument). -/
theorem tick_battery_step (o : Oracle) (d : ℚ) (tgt : Option Position)
    (s : SimulationState) (hd : 0 ≤ d) (hsp : 0 ≤ s.speed)
    (hb0 : 0 ≤ s.drone.battery) (hb1 : s.drone.battery ≤ 100) :
    (updateSimulation o d tgt s).1.drone.battery ≤ s.drone.battery ∧
    0 ≤ (updateSimulation o d tgt s).1.drone.battery ∧
    (updateSimulation o d tgt s).1.drone.battery ≤ 100 ∧
    (updateSimulation o d tgt s).1.speed = s.speed := by
  have hdt : 0 ≤ 1/100 * (d * s.speed) := by positivity
  by_cases hrb : (!s.isRunning || s.isPaused) = true
  · simp [updateSimulation, hrb, hb0, hb1]
  · rcases tgt with _ | t
    · simp [updateSimulation, hrb, hb0, hb1]
    · by_cases hlt : hypLt (s.drone.position.x - t.x) (s.drone.position.z - t.z) (1/2) = true
      · simp only [one_div] at hlt
        simp [updateSimulation, hrb, hlt, hb0, hb1]
      · simp only [one_div] at hlt
        simp [updateSimulation, hrb, hlt, hb0, hb1]
        exact ⟨mul_nonneg hd hsp, by linarith⟩

/-- The list of states (paired with the threaded target) visited while
folding `updateSimulation` over a list of raw frame deltas. -/
def tickTrace (o : Oracle) : List ℚ → SimulationState × Option Position →
    List (SimulationState × Option Position)
  | [], st => [st]
  | d :: ds, st => st :: tickTrace o ds (updateSimulation o d st.2 st.1)

/-- The battery readings along a tick sequence (initial state included). -/
def batteryTrace (o : Oracle) (ds : List ℚ) (st : SimulationState × Option Position) :
    List ℚ :=
  (tickTrace o ds st).map fun p => p.1.drone.battery

theorem batteryTrace_cons (o : Oracle) (d : ℚ) (ds : List ℚ)
    (st : SimulationState × Option Position) :
    batteryTrace o (d :: ds) st
      = st.1.drone.battery :: batteryTrace o ds (updateSimulation o d st.2 st.1) := rfl

theorem batteryTrace_head (o : Oracle) (ds : List ℚ)
    (st : SimulationState × Option Position) :
    (batteryTrace o ds st).head? = some st.1.drone.battery := by
  cases ds <;> rfl

/-- Auxiliary induction for C5: along any tick sequence with non-negative
deltas, non-negative speed and a battery starting in `[0, 100]`, the battery
readings are pairwise non-increasing and all stay in `[0, 100]`. -/
theorem batteryTrace_invariant (o : Oracle) (ds : List ℚ)
    (st : SimulationState × Option Position)
    (hd : ∀ d ∈ ds, 0 ≤ d) (hsp : 0 ≤ st.1.speed)
    (hb0 : 0 ≤ st.1.drone.battery) (hb1 : st.1.drone.battery ≤ 100) :
    List.Chain' (fun a b => b ≤ a) (batteryTrace o ds st) ∧
    ∀ b ∈ batteryTrace o ds st, 0 ≤ b ∧ b ≤ 100 := by
  induction ds generalizing st with
  | nil =>
      refine ⟨by simp [batteryTrace, tickTrace], ?_⟩
      intro b hb
      simp [batteryTrace, tickTrace] at hb
      exact hb ▸ ⟨hb0, hb1⟩
  | cons d ds ih =>
      obtain ⟨hmono, hlo, hhi, hspeq⟩ :=
        tick_battery_step o d st.2 st.1 (hd d (by simp)) hsp hb0 hb1
      have ih' := ih (updateSimulation o d st.2 st.1)
        (fun x hx => hd x (List.mem_cons_of_mem _ hx)) (hspeq ▸ hsp) hlo hhi
      constructor
      · rw [batteryTrace_cons]
        refine List.chain'_cons'.mpr ⟨?_, ih'.1⟩
        intro y hy
        rw [batteryTrace_head] at hy
        cases hy
        exact hmono
      · intro b hb
        rw [batteryTrace_cons] at hb
        rcases List.mem_cons.mp hb with rfl | hb'
        · exact ⟨hb0, hb1⟩
        · exact ih'.2 b hb'

/-- C5: between resets, the battery starts at 100 (initial drone state),
and along every sequence of ticks (non-negative frame deltas, non-negative
speed multiplier) it is non-increasing from tick to tick and stays within
`[0, 100]`. -/
theorem c5_battery_invariant (o : Oracle) (ds : List ℚ)
    (st : SimulationState × Option Position)
    (hd : ∀ d ∈ ds, 0 ≤ d) (hsp : 0 ≤ st.1.speed)
    (hb0 : 0 ≤ st.1.drone.battery) (hb1 : st.1.drone.battery ≤ 100) :
    initialDroneState.battery = 100 ∧
    List.Chain' (fun a b => b ≤ a) (batteryTrace o ds st) ∧
    ∀ b ∈ batteryTrace o ds st, 0 ≤ b ∧ b ≤ 100 :=
  ⟨rfl, (batteryTrace_invariant o ds st hd hsp hb0 hb1).1,
    (batteryTrace_invariant o ds st hd hsp hb0 hb1).2⟩

/-- C5 (witness): the invariant along a concrete two-tick run from the
baseline state. -/
theorem c5_battery_invariant_witness :
    initialDroneState.battery = 100 ∧
    List.Chain' (fun a b => b ≤ a) (batteryTrace oracle0 [1/10, 1/5] (baseState, none)) ∧
    ∀ b ∈ batteryTrace oracle0 [1/10, 1/5] (baseState, none), 0 ≤ b ∧ b ≤ 100 :=
  c5_battery_invariant oracle0 [1/10, 1/5] (baseState, none)
    (by intro d hd; rcases List.mem_cons.mp hd with rfl | hd'
        · norm_num
        · rcases List.mem_cons.mp hd' with rfl | h
          · norm_num
          · simp at h)
    (by norm_num [baseState])
    (by norm_num [baseState, initialDroneState])
    (by norm_num [baseState, initialDroneState])

/-! ## C6 — coverage window frame property -/

/-- The coverage-loop hit condition, characterised in the claim's
vocabulary: offset within the `±3` window and squared Euclidean offset
within the squared sensor radius (the exact real comparison
`hypot dx dz ≤ fov`). -/
theorem coverHit_iff (cX cZ : ℤ) (fov : ℚ) (x z : Fin GRID_SIZE) :
    coverHit cX cZ fov x z = true ↔
      (|((x : ℕ) : ℤ) - cX| ≤ 3 ∧ |((z : ℕ) : ℤ) - cZ| ≤ 3 ∧ 0 ≤ fov ∧
        ((((x : ℕ) : ℤ) - cX : ℤ) : ℚ) * ((((x : ℕ) : ℤ) - cX : ℤ) : ℚ)
          + ((((z : ℕ) : ℤ) - cZ : ℤ) : ℚ) * ((((z : ℕ) : ℤ) - cZ : ℤ) : ℚ)
          ≤ fov * fov) := by
  simp [coverHit, hypLe, hypSq, abs_le]
  tauto

/-- C6: on a movement tick, a grid cell is replaced by its `markCell` image
(`visited := true`, `lastVisited := ` new elapsed time, `coverageValue := 1`,
`uncertaintyValue := max 0 (u - 0.1)`, `isVisible := true`) exactly when its
offset from the agent's (post-move) grid cell lies in the `±3` window and
within the Euclidean sensor radius; every other cell is returned unchanged,
even cells geometrically within the radius but outside the window (for
them the window conjunct fails and the `else` branch applies); out-of-range
indices do not exist in the `[0,20)²` grid domain. -/
theorem c6_coverage_frame (o : Oracle) (d : ℚ) (t : Position) (s : SimulationState)
    (hrun : s.isRunning = true) (hp : s.isPaused = false)
    (hfar : hypLt (s.drone.position.x - t.x) (s.drone.position.z - t.z) (1/2) = false)
    (x z : Fin GRID_SIZE) :
    (updateSimulation o d (some t) s).1.grid x z =
      if |((x : ℕ) : ℤ) - ⌊(updateSimulation o d (some t) s).1.drone.position.x + 10⌋| ≤ 3 ∧
         |((z : ℕ) : ℤ) - ⌊(updateSimulation o d (some t) s).1.drone.position.z + 10⌋| ≤ 3 ∧
         0 ≤ s.drone.fovRange ∧
         ((((x : ℕ) : ℤ) - ⌊(updateSimulation o d (some t) s).1.drone.position.x + 10⌋ : ℤ) : ℚ)
             * ((((x : ℕ) : ℤ) - ⌊(updateSimulation o d (some t) s).1.drone.position.x + 10⌋ : ℤ) : ℚ)
           + ((((z : ℕ) : ℤ) - ⌊(updateSimulation o d (some t) s).1.drone.position.z + 10⌋ : ℤ) : ℚ)
             * ((((z : ℕ) : ℤ) - ⌊(updateSimulation o d (some t) s).1.drone.position.z + 10⌋ : ℤ) : ℚ)
           ≤ s.drone.fovRange * s.drone.fovRange
      then markCell (updateSimulation o d (some t) s).1.elapsedTime (s.grid x z)
      else s.grid x z := by
  simp only [one_div] at hfar
  have hG : (updateSimulation o d (some t) s).1.grid
      = markObservedCells ⌊(updateSimulation o d (some t) s).1.drone.position.x + 10⌋
          ⌊(updateSimulation o d (some t) s).1.drone.position.z + 10⌋
          s.drone.fovRange ((updateSimulation o d (some t) s).1.elapsedTime) s.grid := by
    simp [updateSimulation, hrun, hp, hfar]
  rw [hG]
  show (if coverHit _ _ _ x z then _ else _) = _
  exact if_congr (coverHit_iff _ _ _ x z) rfl rfl

/-- C6 (witness): in the C1 scenario tick the agent lands at `(1/2, 2, 0)`,
whose grid cell is `(10, 10)`; that cell (offset `(0,0)`, inside window and
radius) is replaced by its `markCell` image. -/
theorem c6_coverage_frame_witness :
    (updateSimulation oracle0 (1/10) (some c1Target) c1State).1.grid
        ⟨10, by norm_num [GRID_SIZE]⟩ ⟨10, by norm_num [GRID_SIZE]⟩
      = markCell ((updateSimulation oracle0 (1/10) (some c1Target) c1State).1.elapsedTime)
          (c1State.grid ⟨10, by norm_num [GRID_SIZE]⟩ ⟨10, by norm_num [GRID_SIZE]⟩) := by
  have h := c6_coverage_frame oracle0 (1/10) c1Target c1State rfl rfl
    (by norm_num [hypLt, hypSq, c1State, baseState, c1Target, initialDroneState])
    ⟨10, by norm_num [GRID_SIZE]⟩ ⟨10, by norm_num [GRID_SIZE]⟩
  rw [if_pos] at h
  · exact h
  · norm_num [updateSimulation, c1State, baseState, c1Target, initialDroneState,
      hypLt, hypLe, hypSq, moveDelta]

/-! ## C9 — timeline cap and newest-first insertion -/

/-- The detection events created by one movement tick, in creation order
(intruder list order); the tick unshifts them one by one, so in the
resulting timeline they appear reversed — most recently inserted first. -/
def freshDetections (oldIs newIs : List Intruder) (t : ℚ) : List TimelineEvent :=
  ((oldIs.zip newIs).filter fun p => p.2.detected && !p.1.detected).map
    fun p => mkDetectionEvent p.2 t

/-- Folding unshifts over a list prepends the created items in reverse
creation order. -/
theorem foldl_unshift {α β : Type} (l : List α) (P : α → Bool) (e : α → β)
    (acc : List β) :
    l.foldl (fun a p => if P p then e p :: a else a) acc
      = ((l.filter P).map e).reverse ++ acc := by
  induction l generalizing acc with
  | nil => simp
  | cons hd tl ih =>
      by_cases h : P hd
      · simp [h, ih, List.filter_cons]
      · simp [h, ih, List.filter_cons]

/-- C9: all three timeline writers respect the cap-50, newest-at-index-0
contract.  A movement tick's timeline is exactly the tick's detection
events — most recently inserted first — prepended to the old timeline and
truncated to 50, hence never longer than 50; `addTimelineEvent` puts the
new event at index 0 and also truncates to 50; `setEnvironment` replaces
the timeline by the single environment-change event. -/
theorem c9_timeline_contract :
    (∀ (o : Oracle) (d : ℚ) (t : Position) (s : SimulationState),
      s.isRunning = true → s.isPaused = false →
      hypLt (s.drone.position.x - t.x) (s.drone.position.z - t.z) (1/2) = false →
      (updateSimulation o d (some t) s).1.timeline
        = ((freshDetections s.intruders (updateSimulation o d (some t) s).1.intruders
              ((updateSimulation o d (some t) s).1.elapsedTime)).reverse
            ++ s.timeline).take 50 ∧
      (updateSimulation o d (some t) s).1.timeline.length ≤ 50) ∧
    (∀ (e : TimelineEvent) (s : SimulationState),
      (addTimelineEvent e s).timeline.head? = some e ∧
      (addTimelineEvent e s).timeline.length ≤ 50) ∧
    (∀ (env : Environment) (nowMs : ℚ) (rngO rngI : ℕ → ℚ)
      (tr ur : Fin GRID_SIZE → Fin GRID_SIZE → ℚ) (s : SimulationState),
      (setEnvironment env nowMs rngO rngI tr ur s).1.timeline
        = [envChangeEvent env nowMs]) := by
  refine ⟨?_, ?_, ?_⟩
  · intro o d t s hrun hp hfar
    constructor
    · simp only [updateSimulation, hrun, hp, hfar, Bool.not_true, Bool.or_false,
        Bool.false_eq_true, if_false, freshDetections]
      rw [foldl_unshift]
    · simp only [updateSimulation, hrun, hp, hfar, Bool.not_true, Bool.or_false,
        Bool.false_eq_true, if_false]
      exact List.length_take_le _ _
  · intro e s
    refine ⟨rfl, ?_⟩
    simp [addTimelineEvent]
  · intro env nowMs rngO rngI tr ur s
    rfl

/-- C9 (witness): the contract applied to the C1 movement tick and to a
concrete `addTimelineEvent` call. -/
theorem c9_timeline_contract_witness :
    ((updateSimulation oracle0 (1/10) (some c1Target) c1State).1.timeline
      = ((freshDetections c1State.intruders
            (updateSimulation oracle0 (1/10) (some c1Target) c1State).1.intruders
            ((updateSimulation oracle0 (1/10) (some c1Target) c1State).1.elapsedTime)).reverse
          ++ c1State.timeline).take 50) ∧
    (updateSimulation oracle0 (1/10) (some c1Target) c1State).1.timeline.length ≤ 50 ∧
    (addTimelineEvent priorEvent baseState).timeline.head? = some priorEvent := by
  obtain ⟨h1, h2⟩ := c9_timeline_contract.1 oracle0 (1/10) c1Target c1State rfl rfl
    (by norm_num [hypLt, hypSq, c1State, baseState, c1Target, initialDroneState])
  exact ⟨h1, h2, (c9_timeline_contract.2.1 priorEvent baseState).1⟩
